import Mathlib

/-!
Shallow embedding of the angle-correction and polygon-metrics engine
(`src/area_calculator.py` and `src/angle_extractor.py`).

Numeric modelling: Python floats are modelled as exact rationals for the
area-calculator arithmetic (products, sums, defaults — the algebraic
structure the claims are about) and as real numbers where the code calls
`math.cos` / `math.sqrt` / `np.sqrt`.  The Python literal `0.1` is the
rational 1/10, `10.764` is 10764/1000.  Polygon points are integer pixel
pairs, as `np.int32` casting and the spec's data model require.
-/

namespace AreaCalc

/-- Cross product term of the shoelace formula for one edge. -/
def cross (a b : ℤ × ℤ) : ℤ := a.1 * b.2 - b.1 * a.2

/-- Twice the signed area of the closed ring: sum of edge cross terms,
including the wraparound edge back to `first`. -/
def shoelaceAux (first : ℤ × ℤ) : List (ℤ × ℤ) → ℤ
  | [] => 0
  | [p] => cross p first
  | p :: q :: rest => cross p q + shoelaceAux first (q :: rest)

/-- Twice the signed shoelace area of a polygon (implicit closed ring). -/
def shoelace : List (ℤ × ℤ) → ℤ
  | [] => 0
  | p :: rest => shoelaceAux p (p :: rest)

/-- `AreaCalculator.calculate_polygon_area_pixels`: 0.0 for fewer than 3
points, otherwise the absolute contour area.  `cv2.contourArea` on integer
points is modelled by its documented semantics, the absolute value of the
signed shoelace area (Green's formula). -/
def calculate_polygon_area_pixels (polygon_points : List (ℤ × ℤ)) : ℚ :=
  if polygon_points.length < 3 then 0
  else |(shoelace polygon_points : ℚ)| / 2

/-- `AreaCalculator.pixels_to_square_meters`: `None` per-axis scales are
replaced by the 0.10 m/pixel default (y falls back to the already-defaulted
x), then the pixel area is multiplied by the conversion factor. -/
def pixels_to_square_meters (pixel_area : ℚ) (pixel_size_x pixel_size_y : Option ℚ) : ℚ :=
  let psx := pixel_size_x.getD (1/10)
  let psy := pixel_size_y.getD psx
  let area_conversion_factor := psx * psy
  pixel_area * area_conversion_factor

/-- `AreaCalculator.apply_angle_correction`. -/
def apply_angle_correction (apparent_area correction_factor : ℚ) : ℚ :=
  apparent_area * correction_factor

/-- The `angle_data` dictionary consumed by the calculator: each of the
three keys the code reads may be absent (`none`). -/
structure AngleData where
  has_angle_data : Option Bool
  correction_factor : Option ℚ
  is_perpendicular : Option Bool
deriving DecidableEq

/-- Python's guard `angle_data and angle_data.get(\x7b...\x7d)` as a Bool:
a `None` reading is falsy; otherwise the `has_angle_data` entry with
default `False` decides.  (Dict truthiness is absorbed: an empty dict is
falsy in Python, but it also lacks the key, so `.get` returns the same
`False`.) -/
def angleDataActive : Option AngleData → Bool
  | none => false
  | some d => d.has_angle_data.getD false

/-- Result dictionary of `calculate_corrected_area`. -/
structure AreaResult where
  pixel_area : ℚ
  apparent_area_m2 : ℚ
  corrected_area_m2 : ℚ
  correction_factor : ℚ
  correction_applied : Bool
  area_difference_m2 : ℚ
  area_difference_percent : ℚ
deriving DecidableEq

/-- `AreaCalculator.calculate_corrected_area`. -/
def calculate_corrected_area (polygon_points : List (ℤ × ℤ))
    (pixel_size_x pixel_size_y : Option ℚ) (angle_data : Option AngleData) :
    AreaResult :=
  let psx := pixel_size_x.getD (1/10)
  let psy := pixel_size_y.getD psx
  let pixel_area := calculate_polygon_area_pixels polygon_points
  let apparent_area_m2 := pixels_to_square_meters pixel_area (some psx) (some psy)
  let corrected : ℚ × Bool × ℚ :=
    if angleDataActive angle_data then
      let d := (angle_data.getD ⟨none, none, none⟩)
      let correction_factor := d.correction_factor.getD 1
      (apply_angle_correction apparent_area_m2 correction_factor,
       ! d.is_perpendicular.getD true,
       correction_factor)
    else
      (apparent_area_m2, false, 1)
  { pixel_area := pixel_area
    apparent_area_m2 := apparent_area_m2
    corrected_area_m2 := corrected.1
    correction_factor := corrected.2.2
    correction_applied := corrected.2.1
    area_difference_m2 := corrected.1 - apparent_area_m2
    area_difference_percent :=
      if apparent_area_m2 > 0 then (corrected.1 / apparent_area_m2 - 1) * 100 else 0 }

/-- One perimeter edge: pixel deltas are scaled per axis and the Euclidean
length is taken (`np.sqrt(dx_meters**2 + dy_meters**2)`). -/
noncomputable def edgeLen (psx psy : ℚ) (p q : ℤ × ℤ) : ℝ :=
  Real.sqrt (((((q.1 - p.1 : ℤ) : ℚ) * psx) ^ 2 + (((q.2 - p.2 : ℤ) : ℚ) * psy) ^ 2 : ℚ))

/-- Sum of edge lengths from the current point onward, closing the ring
at `first` (the wraparound edge of the perimeter loop). -/
noncomputable def perimeterAux (psx psy : ℚ) (first : ℤ × ℤ) : List (ℤ × ℤ) → ℝ
  | [] => 0
  | [p] => edgeLen psx psy p first
  | p :: q :: rest => edgeLen psx psy p q + perimeterAux psx psy first (q :: rest)

/-- `AreaCalculator.calculate_polygon_perimeter`: 0.0 for fewer than 3
points; otherwise the scale defaults are substituted and consecutive-point
distances, including the wraparound edge, are summed. -/
noncomputable def calculate_polygon_perimeter (polygon_points : List (ℤ × ℤ))
    (pixel_size_x pixel_size_y : Option ℚ) : ℝ :=
  if polygon_points.length < 3 then 0
  else
    let psx := pixel_size_x.getD (1/10)
    let psy := pixel_size_y.getD psx
    match polygon_points with
    | [] => 0
    | p :: rest => perimeterAux psx psy p (p :: rest)

/-- The `angle_correction_summary` sub-dictionary of
`calculate_multiple_polygons`. -/
structure AngleCorrectionSummary where
  correction_applied : Bool
  average_correction_factor : ℚ
  total_area_difference_m2 : ℚ
  total_area_difference_percent : ℚ

/-- Result dictionary of `calculate_multiple_polygons`. -/
structure MultiResults where
  individual_areas_m2 : List ℚ
  individual_areas_sqft : List ℚ
  individual_corrected_areas_m2 : List ℚ
  individual_corrected_areas_sqft : List ℚ
  individual_perimeters_m : List ℝ
  individual_corrections : List AreaResult
  total_apparent_area_m2 : ℚ
  total_corrected_area_m2 : ℚ
  total_apparent_area_sqft : ℚ
  total_corrected_area_sqft : ℚ
  total_perimeter_m : ℝ
  polygon_count : ℕ
  angle_correction_summary : AngleCorrectionSummary

/-- State accumulated by the polygon loop of `calculate_multiple_polygons`:
the per-polygon lists, the running totals, and the correction tracking
counters. -/
structure MultiAcc where
  individual_areas_m2 : List ℚ
  individual_areas_sqft : List ℚ
  individual_corrected_areas_m2 : List ℚ
  individual_corrected_areas_sqft : List ℚ
  individual_perimeters_m : List ℝ
  individual_corrections : List AreaResult
  total_apparent_area_m2 : ℚ
  total_corrected_area_m2 : ℚ
  total_apparent_area_sqft : ℚ
  total_corrected_area_sqft : ℚ
  total_perimeter_m : ℝ
  total_correction_factors : ℚ
  corrections_applied : ℕ

/-- The polygon loop of `calculate_multiple_polygons`, with the scales
already defaulted.  Each polygon contributes one entry to every list (in
input order), its areas and perimeter to the totals, and, when its
`correction_applied` flag is set, its factor to the correction counters. -/
noncomputable def multiLoop (psx psy : ℚ) (angle_data : Option AngleData) :
    List (List (ℤ × ℤ)) → MultiAcc
  | [] => ⟨[], [], [], [], [], [], 0, 0, 0, 0, 0, 0, 0⟩
  | polygon_points :: rest =>
    let area_result := calculate_corrected_area polygon_points (some psx) (some psy) angle_data
    let apparent_area_m2 := area_result.apparent_area_m2
    let corrected_area_m2 := area_result.corrected_area_m2
    let apparent_area_sqft := apparent_area_m2 * 10.764
    let corrected_area_sqft := corrected_area_m2 * 10.764
    let perimeter_m := calculate_polygon_perimeter polygon_points (some psx) (some psy)
    let acc := multiLoop psx psy angle_data rest
    { individual_areas_m2 := apparent_area_m2 :: acc.individual_areas_m2
      individual_areas_sqft := apparent_area_sqft :: acc.individual_areas_sqft
      individual_corrected_areas_m2 := corrected_area_m2 :: acc.individual_corrected_areas_m2
      individual_corrected_areas_sqft := corrected_area_sqft :: acc.individual_corrected_areas_sqft
      individual_perimeters_m := perimeter_m :: acc.individual_perimeters_m
      individual_corrections := area_result :: acc.individual_corrections
      total_apparent_area_m2 := apparent_area_m2 + acc.total_apparent_area_m2
      total_corrected_area_m2 := corrected_area_m2 + acc.total_corrected_area_m2
      total_apparent_area_sqft := apparent_area_sqft + acc.total_apparent_area_sqft
      total_corrected_area_sqft := corrected_area_sqft + acc.total_corrected_area_sqft
      total_perimeter_m := perimeter_m + acc.total_perimeter_m
      total_correction_factors :=
        (if area_result.correction_applied then area_result.correction_factor else 0)
          + acc.total_correction_factors
      corrections_applied :=
        (if area_result.correction_applied then 1 else 0) + acc.corrections_applied }

/-- `AreaCalculator.calculate_multiple_polygons`: defaults the scales, runs
the loop, and fills the summary — whose difference fields are written only
inside the `corrections_applied > 0` branch (and the percent only when the
apparent total is additionally positive); otherwise the initial zeros
remain. -/
noncomputable def calculate_multiple_polygons (polygons_list : List (List (ℤ × ℤ)))
    (pixel_size_x pixel_size_y : Option ℚ) (angle_data : Option AngleData) :
    MultiResults :=
  let psx := pixel_size_x.getD (1/10)
  let psy := pixel_size_y.getD psx
  let acc := multiLoop psx psy angle_data polygons_list
  { individual_areas_m2 := acc.individual_areas_m2
    individual_areas_sqft := acc.individual_areas_sqft
    individual_corrected_areas_m2 := acc.individual_corrected_areas_m2
    individual_corrected_areas_sqft := acc.individual_corrected_areas_sqft
    individual_perimeters_m := acc.individual_perimeters_m
    individual_corrections := acc.individual_corrections
    total_apparent_area_m2 := acc.total_apparent_area_m2
    total_corrected_area_m2 := acc.total_corrected_area_m2
    total_apparent_area_sqft := acc.total_apparent_area_sqft
    total_corrected_area_sqft := acc.total_corrected_area_sqft
    total_perimeter_m := acc.total_perimeter_m
    polygon_count := polygons_list.length
    angle_correction_summary :=
      if acc.corrections_applied > 0 then
        { correction_applied := true
          average_correction_factor := acc.total_correction_factors / (acc.corrections_applied : ℚ)
          total_area_difference_m2 := acc.total_corrected_area_m2 - acc.total_apparent_area_m2
          total_area_difference_percent :=
            if acc.total_apparent_area_m2 > 0 then
              (acc.total_corrected_area_m2 / acc.total_apparent_area_m2 - 1) * 100
            else 0 }
      else ⟨false, 1, 0, 0⟩ }

end AreaCalc

namespace AngleExtract

/-- `math.radians`. -/
noncomputable def radians (deg : ℝ) : ℝ := deg * Real.pi / 180

/-- `AngleExtractor._calculate_correction_factor`: absolute angles in
radians; above 85 degrees of pitch only the roll cosine corrects,
otherwise the combined effective angle does; the result is limited to the
range 1.0 to 3.0. -/
noncomputable def calculate_correction_factor (pitch_angle roll_angle : ℝ) : ℝ :=
  let pitch_rad := radians |pitch_angle|
  let roll_rad := radians |roll_angle|
  let correction_factor :=
    if |pitch_angle| > 85 then 1 / Real.cos roll_rad
    else
      let effective_angle := Real.sqrt (pitch_rad ^ 2 + roll_rad ^ 2)
      1 / Real.cos effective_angle
  min (max correction_factor 1) 3

/-- `AngleExtractor._is_perpendicular` with the instance tolerance of 5
degrees. -/
def is_perpendicular_check (pitch_angle roll_angle : ℝ) : Prop :=
  |(|pitch_angle| - 90)| ≤ 5 ∧ |roll_angle| ≤ 5

/-- The `image_type` strings the extractor produces. -/
inductive ImageType
  | standard
  | drone
  | dji_drone
  | orthorectified
  | unknown
deriving DecidableEq

/-- The EXIF tag dictionary as far as the extractor reads it: the Make and
Model strings and the six angle tags, each possibly absent.  A present
angle tag carries its parsed float value. -/
structure ExifDict where
  make : String
  model : String
  cameraPitch : Option ℝ
  cameraRoll : Option ℝ
  gimbalPitch : Option ℝ
  gimbalRoll : Option ℝ
  flightPitch : Option ℝ
  flightRoll : Option ℝ

/-- A metadata source as the two collaborators expose it: `exif = none`
models an image that cannot be opened, has no EXIF data, or whose tag
values fail to parse (all exceptions are swallowed and the prefilled
result returned); `rasterCrs` says whether rasterio opens the file and
reports a coordinate-reference system (false also covers a rasterio
failure, which is likewise swallowed). -/
structure MetadataSource where
  exif : Option ExifDict
  rasterCrs : Bool

/-- The partial result dictionaries returned by the two private
extraction helpers (these carry no perpendicularity or factor fields). -/
structure ExtractPartial where
  has_angle_data : Bool
  pitch_angle : ℝ
  roll_angle : ℝ
  camera_model : Option String
  image_type : ImageType
  angle_source : Option String

/-- Python `'DJI' in s.upper()`, via `splitOn`: a string contains "DJI"
exactly when splitting its uppercasing on "DJI" yields more than one
piece. -/
def containsDJI (s : String) : Bool := (s.toUpper.splitOn "DJI").length > 1

/-- `AngleExtractor._extract_from_exif`.  The angle-field loop iterates
the declared dict order (CameraPitch, CameraRoll, GimbalPitchDegree,
GimbalRollDegree, FlightPitchDegree, FlightRollDegree); a later present
alias for the same axis overwrites an earlier one, so the resolved pitch
is Flight, else Gimbal, else Camera, else 0 (roll analogous). -/
def extract_from_exif (src : MetadataSource) : ExtractPartial :=
  match src.exif with
  | none => ⟨false, 0, 0, none, .standard, some "exif"⟩
  | some d =>
    let camera_model := (d.make ++ " " ++ d.model).trim
    let pitch_angle := match d.cameraPitch with | some v => v | none => 0
    let pitch_angle := match d.gimbalPitch with | some v => v | none => pitch_angle
    let pitch_angle := match d.flightPitch with | some v => v | none => pitch_angle
    let roll_angle := match d.cameraRoll with | some v => v | none => 0
    let roll_angle := match d.gimbalRoll with | some v => v | none => roll_angle
    let roll_angle := match d.flightRoll with | some v => v | none => roll_angle
    let angles_found :=
      d.cameraPitch.isSome || d.cameraRoll.isSome || d.gimbalPitch.isSome
        || d.gimbalRoll.isSome || d.flightPitch.isSome || d.flightRoll.isSome
    if angles_found then
      ⟨true, pitch_angle, roll_angle, some camera_model,
       if containsDJI camera_model then .dji_drone else .drone, some "exif"⟩
    else
      ⟨false, pitch_angle, roll_angle, some camera_model, .standard, some "exif"⟩

/-- `AngleExtractor._extract_from_geotiff`: a present coordinate-reference
system marks the image orthorectified with angle data implicitly zero;
otherwise (no CRS, or rasterio failure) the prefilled defaults — note
`image_type = standard`, `camera_model = Processed`, `angle_source =
geotiff` — are returned. -/
def extract_from_geotiff (src : MetadataSource) : ExtractPartial :=
  if src.rasterCrs then
    ⟨true, 0, 0, some "Orthorectified GeoTIFF", .orthorectified, some "geotiff"⟩
  else
    ⟨false, 0, 0, some "Processed", .standard, some "geotiff"⟩

/-- The full reading `extract_angles_from_image` returns. -/
structure AngleReading where
  has_angle_data : Bool
  is_perpendicular : Prop
  pitch_angle : ℝ
  roll_angle : ℝ
  correction_factor : ℝ
  image_type : ImageType
  camera_model : Option String
  angle_source : Option String

/-- `AngleExtractor.extract_angles_from_image`: tries EXIF, falls back to
the geotiff check, merges the winning partial dict over the initial
result (`dict.update` overwrites all six of its keys), and recomputes the
factor and perpendicularity only when angle data was found. -/
noncomputable def extract_angles_from_image (src : MetadataSource) : AngleReading :=
  let angles :=
    if (extract_from_exif src).has_angle_data then extract_from_exif src
    else extract_from_geotiff src
  { has_angle_data := angles.has_angle_data
    is_perpendicular :=
      if angles.has_angle_data then
        is_perpendicular_check angles.pitch_angle angles.roll_angle
      else True
    pitch_angle := angles.pitch_angle
    roll_angle := angles.roll_angle
    correction_factor :=
      if angles.has_angle_data then
        calculate_correction_factor angles.pitch_angle angles.roll_angle
      else 1
    image_type := angles.image_type
    camera_model := angles.camera_model
    angle_source := angles.angle_source }

/-- Stated from the spec's correction-model wording, for the refinement
check of C6: "Clamp result to [1.0, 3.0]". -/
noncomputable def spec_clamp (x : ℝ) : ℝ := max 1 (min x 3)

/-- Stated from the spec's correction-model wording, for the refinement
check of C6: the clamp of the reciprocal cosine of the roll when the
absolute pitch exceeds 85 degrees, of the effective combined angle
otherwise. -/
noncomputable def spec_correction_factor (pitch_deg roll_deg : ℝ) : ℝ :=
  if |pitch_deg| > 85 then spec_clamp (1 / Real.cos (radians |roll_deg|))
  else spec_clamp (1 / Real.cos (Real.sqrt ((radians |pitch_deg|) ^ 2 + (radians |roll_deg|) ^ 2)))

end AngleExtract

open AreaCalc AngleExtract

/-- C1: with a reading whose `has_angle_data` entry is `true`, the engine
multiplies the apparent area by the reading's correction factor
unconditionally (the perpendicular classification only drives the
`correction_applied` flag, reported as the negation of
`is_perpendicular`); with a null reading or `has_angle_data` false, the
factor is 1.0, the corrected area equals the apparent area, and
`correction_applied` is false. -/
theorem claim_C1 (pts : List (ℤ × ℤ)) (psx psy : Option ℚ) (ad : Option AngleData) :
    (∀ (d : AngleData) (f : ℚ) (b : Bool), ad = some d → d.has_angle_data = some true →
      d.correction_factor = some f → d.is_perpendicular = some b →
      (calculate_corrected_area pts psx psy ad).corrected_area_m2
          = (calculate_corrected_area pts psx psy ad).apparent_area_m2 * f
        ∧ (calculate_corrected_area pts psx psy ad).correction_factor = f
        ∧ (calculate_corrected_area pts psx psy ad).correction_applied = ! b)
    ∧ (angleDataActive ad = false →
        (calculate_corrected_area pts psx psy ad).correction_factor = 1
        ∧ (calculate_corrected_area pts psx psy ad).corrected_area_m2
            = (calculate_corrected_area pts psx psy ad).apparent_area_m2
        ∧ (calculate_corrected_area pts psx psy ad).correction_applied = false) := by
  constructor
  · rintro d f b rfl hhas hcf hip
    simp [calculate_corrected_area, angleDataActive, hhas, hcf, hip, apply_angle_correction]
  · intro h
    simp [calculate_corrected_area, h]

/-- Witness for C1: a perpendicular-classified reading with factor 2 still
doubles the area (with `correction_applied = false`), and a null reading
reports factor 1. -/
theorem claim_C1_witness :
    ((calculate_corrected_area [(0,0),(10,0),(0,10)] (some 1) (some 1)
        (some ⟨some true, some 2, some true⟩)).corrected_area_m2
      = (calculate_corrected_area [(0,0),(10,0),(0,10)] (some 1) (some 1)
        (some ⟨some true, some 2, some true⟩)).apparent_area_m2 * 2)
    ∧ (calculate_corrected_area [(0,0),(10,0),(0,10)] (some 1) (some 1)
        none).correction_factor = 1 :=
  ⟨((claim_C1 [(0,0),(10,0),(0,10)] (some 1) (some 1)
      (some ⟨some true, some 2, some true⟩)).1 _ 2 true rfl rfl rfl rfl).1,
   ((claim_C1 [(0,0),(10,0),(0,10)] (some 1) (some 1) none).2 rfl).1⟩

/-- Counterexample to C2: the claim says the engine performs no scale
defaulting, but calling with a null scale on the 10-by-10 right triangle
(pixel area 50) returns an apparent area of 0.5 square meters — exactly
the result of substituting the conventional 0.10 m/pixel default — and the
whole result coincides with an explicit 0.10 call. -/
theorem claim_C2_counterexample :
    (calculate_corrected_area [(1,1),(11,1),(1,11)] none none none).apparent_area_m2 = 1/2
    ∧ calculate_corrected_area [(1,1),(11,1),(1,11)] none none none
        = calculate_corrected_area [(1,1),(11,1),(1,11)] (some (1/10)) (some (1/10)) none := by
  refine ⟨?_, rfl⟩
  norm_num [calculate_corrected_area, pixels_to_square_meters, angleDataActive,
    calculate_polygon_area_pixels, shoelace, shoelaceAux, cross]

/-- C2 amended: the engine itself substitutes the conventional default —
a null `pixel_size_x` becomes 0.10 m/pixel, a null `pixel_size_y` copies
the (already defaulted) x scale — and only when both scales are supplied
is the result computed from exactly the passed values. -/
theorem claim_C2 (pts : List (ℤ × ℤ)) (ad : Option AngleData) :
    (∀ psy : Option ℚ, calculate_corrected_area pts none psy ad
        = calculate_corrected_area pts (some (1/10)) psy ad)
    ∧ (∀ sx : ℚ, calculate_corrected_area pts (some sx) none ad
        = calculate_corrected_area pts (some sx) (some sx) ad)
    ∧ (∀ sx sy : ℚ, (calculate_corrected_area pts (some sx) (some sy) ad).apparent_area_m2
        = calculate_polygon_area_pixels pts * (sx * sy)) :=
  ⟨fun _ => rfl, fun _ => rfl, fun _ _ => rfl⟩

/-- Counterexample to C3: with the degenerate scale x = -1, y = 1 the
engine signals no error at all — it silently returns the negative
apparent and corrected area -2 for a triangle of pixel area 2. -/
theorem claim_C3_counterexample :
    (calculate_corrected_area [(1,1),(3,1),(1,3)] (some (-1)) (some 1) none).apparent_area_m2 = -2
    ∧ (calculate_corrected_area [(1,1),(3,1),(1,3)] (some (-1)) (some 1) none).corrected_area_m2 < 0 := by
  constructor <;>
    norm_num [calculate_corrected_area, pixels_to_square_meters, angleDataActive,
      calculate_polygon_area_pixels, shoelace, shoelaceAux, cross]

/-- C3 amended: the engine performs no scale validation and has no error
path: the apparent area is always the total product pixel area times the
two scales, so a non-positive x scale with a non-negative y scale yields
a non-positive area, returned silently. -/
theorem claim_C3 (pts : List (ℤ × ℤ)) (ad : Option AngleData) (sx sy : ℚ)
    (hsx : sx ≤ 0) (hsy : 0 ≤ sy) :
    (calculate_corrected_area pts (some sx) (some sy) ad).apparent_area_m2
        = calculate_polygon_area_pixels pts * (sx * sy)
    ∧ (calculate_corrected_area pts (some sx) (some sy) ad).apparent_area_m2 ≤ 0 := by
  refine ⟨rfl, ?_⟩
  have h0 : 0 ≤ calculate_polygon_area_pixels pts := by
    unfold calculate_polygon_area_pixels
    split
    · exact le_refl 0
    · positivity
  have h1 : sx * sy ≤ 0 := mul_nonpos_of_nonpos_of_nonneg hsx hsy
  calc (calculate_corrected_area pts (some sx) (some sy) ad).apparent_area_m2
      = calculate_polygon_area_pixels pts * (sx * sy) := rfl
    _ ≤ 0 := mul_nonpos_of_nonneg_of_nonpos h0 h1

/-- Witness for C3 amended: the concrete degenerate scale (-1, 1) on a
pixel-area-2 triangle produces a non-positive area with no error. -/
theorem claim_C3_witness :
    ((-1 : ℚ) ≤ 0 ∧ (0 : ℚ) ≤ 1)
    ∧ (calculate_corrected_area [(1,1),(3,1),(1,3)] (some (-1)) (some 1) none).apparent_area_m2 ≤ 0 :=
  ⟨⟨by decide, by decide⟩,
   (claim_C3 [(1,1),(3,1),(1,3)] none (-1) 1 (by decide) (by decide)).2⟩

/-- Counterexample to C5: with one triangle of apparent area 50 and a
reading that has angle data, factor 2, but a perpendicular classification,
no polygon gets `correction_applied`, and the summary's difference field
then stays at its initial 0.0 even though the aggregate totals differ by
50 — so the claimed equality does not hold in the no-correction case. -/
theorem claim_C5_counterexample :
    (calculate_multiple_polygons [[(1,1),(11,1),(1,11)]] (some 1) (some 1)
        (some ⟨some true, some 2, some true⟩)).angle_correction_summary.total_area_difference_m2
      = 0
    ∧ (calculate_multiple_polygons [[(1,1),(11,1),(1,11)]] (some 1) (some 1)
        (some ⟨some true, some 2, some true⟩)).total_corrected_area_m2
      - (calculate_multiple_polygons [[(1,1),(11,1),(1,11)]] (some 1) (some 1)
        (some ⟨some true, some 2, some true⟩)).total_apparent_area_m2 = 50 := by
  constructor <;>
    norm_num [calculate_multiple_polygons, multiLoop, calculate_corrected_area,
      pixels_to_square_meters, angleDataActive, apply_angle_correction,
      calculate_polygon_area_pixels, shoelace, shoelaceAux, cross]

/-- C5 amended: the summary difference fields are written only when at
least one polygon has `correction_applied` (the summary's own flag): then
`total_difference_m2` is the difference of the aggregate totals and the
percent is computed from the aggregate totals (0 when the apparent total
is not positive); otherwise both fields remain at their initial 0.0 even
if the totals differ. -/
theorem claim_C5 (polys : List (List (ℤ × ℤ))) (psx psy : Option ℚ) (ad : Option AngleData) :
    ((calculate_multiple_polygons polys psx psy ad).angle_correction_summary.correction_applied
        = true →
      (calculate_multiple_polygons polys psx psy ad).angle_correction_summary.total_area_difference_m2
          = (calculate_multiple_polygons polys psx psy ad).total_corrected_area_m2
            - (calculate_multiple_polygons polys psx psy ad).total_apparent_area_m2
      ∧ (calculate_multiple_polygons polys psx psy ad).angle_correction_summary.total_area_difference_percent
          = (if (calculate_multiple_polygons polys psx psy ad).total_apparent_area_m2 > 0 then
              ((calculate_multiple_polygons polys psx psy ad).total_corrected_area_m2
                  / (calculate_multiple_polygons polys psx psy ad).total_apparent_area_m2 - 1) * 100
            else 0))
    ∧ ((calculate_multiple_polygons polys psx psy ad).angle_correction_summary.correction_applied
        = false →
      (calculate_multiple_polygons polys psx psy ad).angle_correction_summary.total_area_difference_m2
          = 0
      ∧ (calculate_multiple_polygons polys psx psy ad).angle_correction_summary.total_area_difference_percent
          = 0) := by
  by_cases h :
    0 < (multiLoop (psx.getD (1/10)) (psy.getD (psx.getD (1/10))) ad polys).corrections_applied
  · constructor
    · intro _
      simp only [calculate_multiple_polygons, if_pos h]
      constructor <;> trivial
    · intro hfalse
      simp only [calculate_multiple_polygons, if_pos h] at hfalse
      exact Bool.noConfusion hfalse
  · constructor
    · intro htrue
      simp only [calculate_multiple_polygons, if_neg h] at htrue
      exact Bool.noConfusion htrue
    · intro _
      simp only [calculate_multiple_polygons, if_neg h]
      constructor <;> trivial

/-- Witness for C5 amended: with a non-perpendicular factor-2 reading the
summary flag is set and the difference field equals the difference of the
aggregate totals. -/
theorem claim_C5_witness :
    (calculate_multiple_polygons [[(1,1),(11,1),(1,11)]] (some 1) (some 1)
        (some ⟨some true, some 2, some false⟩)).angle_correction_summary.correction_applied = true
    ∧ (calculate_multiple_polygons [[(1,1),(11,1),(1,11)]] (some 1) (some 1)
        (some ⟨some true, some 2, some false⟩)).angle_correction_summary.total_area_difference_m2
        = (calculate_multiple_polygons [[(1,1),(11,1),(1,11)]] (some 1) (some 1)
            (some ⟨some true, some 2, some false⟩)).total_corrected_area_m2
          - (calculate_multiple_polygons [[(1,1),(11,1),(1,11)]] (some 1) (some 1)
            (some ⟨some true, some 2, some false⟩)).total_apparent_area_m2 := by
  have h : (calculate_multiple_polygons [[(1,1),(11,1),(1,11)]] (some 1) (some 1)
      (some ⟨some true, some 2, some false⟩)).angle_correction_summary.correction_applied
      = true := by
    norm_num [calculate_multiple_polygons, multiLoop, calculate_corrected_area,
      pixels_to_square_meters, angleDataActive, apply_angle_correction,
      calculate_polygon_area_pixels, shoelace, shoelaceAux, cross]
  exact ⟨h, ((claim_C5 [[(1,1),(11,1),(1,11)]] (some 1) (some 1)
    (some ⟨some true, some 2, some false⟩)).1 h).1⟩

/-- Counterexample to C4: on a source with no EXIF angle data and no
coordinate-reference system, `extract_angles_from_image` does not return
`image_type = unknown` and `source = none` — the geotiff fallback's
prefilled dictionary overwrites them to `standard` and `geotiff` (and the
camera model to "Processed"). -/
theorem claim_C4_counterexample :
    (extract_angles_from_image ⟨none, false⟩).image_type = ImageType.standard
    ∧ (extract_angles_from_image ⟨none, false⟩).image_type ≠ ImageType.unknown
    ∧ (extract_angles_from_image ⟨none, false⟩).angle_source = some "geotiff"
    ∧ (extract_angles_from_image ⟨none, false⟩).angle_source ≠ none :=
  ⟨rfl, fun h => ImageType.noConfusion h, rfl, fun h => Option.noConfusion h⟩

/-- C4 amended: when tag-based extraction finds no angle field and no
coordinate-reference system is present (parse failures included), the
reading has `has_angle_data = false`, both angles 0, factor 1.0 and
perpendicular true — but `image_type = standard`, `camera_model =
"Processed"` and `source = geotiff`, because `dict.update` applies the
geotiff helper's prefilled defaults over the initial unknown/none values. -/
theorem claim_C4 (src : MetadataSource)
    (hex : (extract_from_exif src).has_angle_data = false)
    (hcrs : src.rasterCrs = false) :
    (extract_angles_from_image src).has_angle_data = false
    ∧ (extract_angles_from_image src).pitch_angle = 0
    ∧ (extract_angles_from_image src).roll_angle = 0
    ∧ (extract_angles_from_image src).correction_factor = 1
    ∧ (extract_angles_from_image src).is_perpendicular
    ∧ (extract_angles_from_image src).image_type = ImageType.standard
    ∧ (extract_angles_from_image src).camera_model = some "Processed"
    ∧ (extract_angles_from_image src).angle_source = some "geotiff" := by
  simp only [extract_angles_from_image, extract_from_geotiff, hex, hcrs,
    Bool.false_eq_true, if_false]
  simp

/-- Witness for C4 amended: a source that fails both parses yields the
standard/geotiff fallback reading. -/
theorem claim_C4_witness :
    (extract_from_exif ⟨none, false⟩).has_angle_data = false
    ∧ (MetadataSource.mk none false).rasterCrs = false
    ∧ ((extract_angles_from_image ⟨none, false⟩).has_angle_data = false
        ∧ (extract_angles_from_image ⟨none, false⟩).correction_factor = 1
        ∧ (extract_angles_from_image ⟨none, false⟩).image_type = ImageType.standard) :=
  ⟨rfl, rfl,
   ((claim_C4 ⟨none, false⟩ rfl rfl).1),
   ((claim_C4 ⟨none, false⟩ rfl rfl).2.2.2.1),
   ((claim_C4 ⟨none, false⟩ rfl rfl).2.2.2.2.2.1)⟩

/-- The two spellings of the clamp to the interval 1 to 3 agree. -/
theorem clamp_comm (x : ℝ) : min (max x 1) 3 = max 1 (min x 3) := by
  rcases le_total x 1 with h | h
  · rw [max_eq_right h, min_eq_left (show (1:ℝ) ≤ 3 by norm_num),
      min_eq_left (h.trans (show (1:ℝ) ≤ 3 by norm_num)), max_eq_left h]
  · rw [max_eq_left h, max_eq_right (le_min h (show (1:ℝ) ≤ 3 by norm_num))]

/-- C6: the code's correction factor is exactly the spec's formula — for
absolute pitch above 85 degrees the clamp to [1, 3] of the reciprocal
cosine of the absolute roll in radians, otherwise the clamp of the
reciprocal cosine of the effective angle sqrt(p^2 + r^2). -/
theorem claim_C6 (pitch_deg roll_deg : ℝ) :
    calculate_correction_factor pitch_deg roll_deg
      = spec_correction_factor pitch_deg roll_deg := by
  by_cases h : |pitch_deg| > 85
  · simp only [calculate_correction_factor, spec_correction_factor, spec_clamp, if_pos h]
    exact clamp_comm _
  · simp only [calculate_correction_factor, spec_correction_factor, spec_clamp, if_neg h]
    exact clamp_comm _

/-- C7: the correction factor is a total function and its value is always
within [1.0, 3.0] on the stated input range (the final clamp absorbs any
negative or diverging cosine, and in this model division is total, so no
exception path exists). -/
theorem claim_C7 (pitch_deg roll_deg : ℝ)
    (h1 : -180 ≤ pitch_deg) (h2 : pitch_deg ≤ 180)
    (h3 : -180 ≤ roll_deg) (h4 : roll_deg ≤ 180) :
    1 ≤ calculate_correction_factor pitch_deg roll_deg
    ∧ calculate_correction_factor pitch_deg roll_deg ≤ 3 := by
  constructor
  · simp only [calculate_correction_factor]
    exact le_min (le_max_right _ _) (by norm_num)
  · simp only [calculate_correction_factor]
    exact min_le_right _ _

/-- Witness for C7 at the perpendicular reading (0, 0). -/
theorem claim_C7_witness :
    ((-180 : ℝ) ≤ 0 ∧ (0 : ℝ) ≤ 180 ∧ (-180 : ℝ) ≤ 0 ∧ (0 : ℝ) ≤ 180)
    ∧ (1 ≤ calculate_correction_factor 0 0 ∧ calculate_correction_factor 0 0 ≤ 3) :=
  ⟨⟨by norm_num, by norm_num, by norm_num, by norm_num⟩,
   claim_C7 0 0 (by norm_num) (by norm_num) (by norm_num) (by norm_num)⟩

/-- C8: a polygon with fewer than 3 points has pixel area 0.0, apparent
and corrected area 0.0 for every scale and reading, and perimeter 0.0. -/
theorem claim_C8 (pts : List (ℤ × ℤ)) (psx psy : Option ℚ) (ad : Option AngleData)
    (h : pts.length < 3) :
    calculate_polygon_area_pixels pts = 0
    ∧ (calculate_corrected_area pts psx psy ad).apparent_area_m2 = 0
    ∧ (calculate_corrected_area pts psx psy ad).corrected_area_m2 = 0
    ∧ calculate_polygon_perimeter pts psx psy = 0 := by
  have h0 : calculate_polygon_area_pixels pts = 0 := by
    simp [calculate_polygon_area_pixels, if_pos h]
  refine ⟨h0, ?_, ?_, by simp [calculate_polygon_perimeter, if_pos h]⟩
  · simp [calculate_corrected_area, pixels_to_square_meters, h0]
  · rcases Bool.eq_false_or_eq_true (angleDataActive ad) with hb | hb <;>
      simp [calculate_corrected_area, pixels_to_square_meters, apply_angle_correction, hb, h0]

/-- Witness for C8 on the empty polygon. -/
theorem claim_C8_witness :
    ([] : List (ℤ × ℤ)).length < 3
    ∧ (calculate_polygon_area_pixels ([] : List (ℤ × ℤ)) = 0
       ∧ (calculate_corrected_area [] (some 1) (some 1) none).apparent_area_m2 = 0
       ∧ (calculate_corrected_area [] (some 1) (some 1) none).corrected_area_m2 = 0
       ∧ calculate_polygon_perimeter [] (some 1) (some 1) = 0) :=
  ⟨by decide, claim_C8 [] (some 1) (some 1) none (by decide)⟩

/-- C9: a reading dictionary with `has_angle_data = true` but a missing
`correction_factor` entry defaults the factor to 1.0 (so the corrected
area equals the apparent area); a missing `is_perpendicular` entry
defaults to true, making `correction_applied` false; and the falsy
readings — null and the empty dictionary — behave exactly like an explicit
`has_angle_data = false` reading. -/
theorem claim_C9 (pts : List (ℤ × ℤ)) (psx psy : Option ℚ) :
    (∀ d : AngleData, d.has_angle_data = some true → d.correction_factor = none →
      (calculate_corrected_area pts psx psy (some d)).correction_factor = 1
      ∧ (calculate_corrected_area pts psx psy (some d)).corrected_area_m2
          = (calculate_corrected_area pts psx psy (some d)).apparent_area_m2)
    ∧ (∀ d : AngleData, d.has_angle_data = some true → d.is_perpendicular = none →
      (calculate_corrected_area pts psx psy (some d)).correction_applied = false)
    ∧ calculate_corrected_area pts psx psy (some ⟨none, none, none⟩)
        = calculate_corrected_area pts psx psy none
    ∧ (∀ (cf : Option ℚ) (ip : Option Bool),
        calculate_corrected_area pts psx psy (some ⟨some false, cf, ip⟩)
          = calculate_corrected_area pts psx psy none) := by
  refine ⟨?_, ?_, rfl, fun cf ip => rfl⟩
  · intro d h1 h2
    simp [calculate_corrected_area, angleDataActive, h1, h2, apply_angle_correction]
  · intro d h1 h2
    simp [calculate_corrected_area, angleDataActive, h1, h2]

/-- Witness for C9: an angle dictionary carrying only
`has_angle_data = true` yields factor 1 and no applied flag. -/
theorem claim_C9_witness :
    ((⟨some true, none, none⟩ : AngleData).has_angle_data = some true
      ∧ (⟨some true, none, none⟩ : AngleData).correction_factor = none)
    ∧ (calculate_corrected_area [(1,1),(11,1),(1,11)] (some 1) (some 1)
        (some ⟨some true, none, none⟩)).correction_factor = 1
    ∧ (calculate_corrected_area [(1,1),(11,1),(1,11)] (some 1) (some 1)
        (some ⟨some true, none, none⟩)).correction_applied = false :=
  ⟨⟨rfl, rfl⟩,
   ((claim_C9 [(1,1),(11,1),(1,11)] (some 1) (some 1)).1 ⟨some true, none, none⟩ rfl rfl).1,
   (claim_C9 [(1,1),(11,1),(1,11)] (some 1) (some 1)).2.1 ⟨some true, none, none⟩ rfl rfl⟩

/-- Every per-polygon list of the aggregation loop has one entry per
polygon. -/
theorem multiLoop_lengths (psx psy : ℚ) (ad : Option AngleData)
    (polys : List (List (ℤ × ℤ))) :
    (multiLoop psx psy ad polys).individual_areas_m2.length = polys.length
    ∧ (multiLoop psx psy ad polys).individual_areas_sqft.length = polys.length
    ∧ (multiLoop psx psy ad polys).individual_corrected_areas_m2.length = polys.length
    ∧ (multiLoop psx psy ad polys).individual_corrected_areas_sqft.length = polys.length
    ∧ (multiLoop psx psy ad polys).individual_perimeters_m.length = polys.length
    ∧ (multiLoop psx psy ad polys).individual_corrections.length = polys.length := by
  induction polys with
  | nil => simp [multiLoop]
  | cons p rest ih =>
    obtain ⟨i1, i2, i3, i4, i5, i6⟩ := ih
    simp [multiLoop, i1, i2, i3, i4, i5, i6]

/-- The square-feet values of the aggregation loop are the square-meter
values scaled by 10.764, pointwise and in total. -/
theorem multiLoop_sqft (psx psy : ℚ) (ad : Option AngleData)
    (polys : List (List (ℤ × ℤ))) :
    (multiLoop psx psy ad polys).individual_areas_sqft
        = (multiLoop psx psy ad polys).individual_areas_m2.map (fun a => a * 10.764)
    ∧ (multiLoop psx psy ad polys).individual_corrected_areas_sqft
        = (multiLoop psx psy ad polys).individual_corrected_areas_m2.map (fun a => a * 10.764)
    ∧ (multiLoop psx psy ad polys).total_apparent_area_sqft
        = (multiLoop psx psy ad polys).total_apparent_area_m2 * 10.764
    ∧ (multiLoop psx psy ad polys).total_corrected_area_sqft
        = (multiLoop psx psy ad polys).total_corrected_area_m2 * 10.764 := by
  induction polys with
  | nil => simp [multiLoop]
  | cons p rest ih =>
    obtain ⟨i1, i2, i3, i4⟩ := ih
    refine ⟨?_, ?_, ?_, ?_⟩ <;> simp [multiLoop, i1, i2, i3, i4] <;> ring

/-- C10: the aggregate's `polygon_count` is the input length, every
per-polygon list has exactly that many entries, and every square-feet
value and total is the matching square-meter value times 10.764. -/
theorem claim_C10 (polys : List (List (ℤ × ℤ))) (psx psy : Option ℚ)
    (ad : Option AngleData) :
    (calculate_multiple_polygons polys psx psy ad).polygon_count = polys.length
    ∧ (calculate_multiple_polygons polys psx psy ad).individual_areas_m2.length
        = (calculate_multiple_polygons polys psx psy ad).polygon_count
    ∧ (calculate_multiple_polygons polys psx psy ad).individual_areas_sqft.length
        = (calculate_multiple_polygons polys psx psy ad).polygon_count
    ∧ (calculate_multiple_polygons polys psx psy ad).individual_corrected_areas_m2.length
        = (calculate_multiple_polygons polys psx psy ad).polygon_count
    ∧ (calculate_multiple_polygons polys psx psy ad).individual_corrected_areas_sqft.length
        = (calculate_multiple_polygons polys psx psy ad).polygon_count
    ∧ (calculate_multiple_polygons polys psx psy ad).individual_perimeters_m.length
        = (calculate_multiple_polygons polys psx psy ad).polygon_count
    ∧ (calculate_multiple_polygons polys psx psy ad).individual_corrections.length
        = (calculate_multiple_polygons polys psx psy ad).polygon_count
    ∧ (calculate_multiple_polygons polys psx psy ad).individual_areas_sqft
        = (calculate_multiple_polygons polys psx psy ad).individual_areas_m2.map
            (fun a => a * 10.764)
    ∧ (calculate_multiple_polygons polys psx psy ad).individual_corrected_areas_sqft
        = (calculate_multiple_polygons polys psx psy ad).individual_corrected_areas_m2.map
            (fun a => a * 10.764)
    ∧ (calculate_multiple_polygons polys psx psy ad).total_apparent_area_sqft
        = (calculate_multiple_polygons polys psx psy ad).total_apparent_area_m2 * 10.764
    ∧ (calculate_multiple_polygons polys psx psy ad).total_corrected_area_sqft
        = (calculate_multiple_polygons polys psx psy ad).total_corrected_area_m2 * 10.764 := by
  have hl := multiLoop_lengths (psx.getD (1/10)) (psy.getD (psx.getD (1/10))) ad polys
  have hs := multiLoop_sqft (psx.getD (1/10)) (psy.getD (psx.getD (1/10))) ad polys
  exact ⟨rfl, hl.1, hl.2.1, hl.2.2.1, hl.2.2.2.1, hl.2.2.2.2.1, hl.2.2.2.2.2,
    hs.1, hs.2.1, hs.2.2.1, hs.2.2.2⟩
